import Mathlib

/-!
# Verification of the moodle-git-book chapter sync tool

A shallow embedding of `src/moodle_book_sync.py` (class `MoodleBookSync`):
the chapter-structure flattening and reconciliation algorithm
(`get_book_chapters`), the per-chapter pull write (`pull_book` loop body)
and the push path (`push_book`, `_update_chapter`).

Python strings are modelled as Lean `String` (a wrapper around `List Char`),
and the Python string operations the code uses (`s[1:]`, `startswith`,
`endswith`, `split`, `replace`, slicing `[:-5]`, `os.path.dirname`) are
embedded as explicit functions over the character list.  Python dict fields
accessed through `dict.get` are modelled as `Option` fields, with the same
defaults the code passes to `.get`.  Exceptions are modelled with `Except`.

Network transport (`requests`), the filesystem and the JSON codec are
external collaborators: they enter as explicit parameters (a fetch oracle,
a directory snapshot, a parse function), never as stubs of repository code.
-/

namespace MoodleBookSync

/-! ## Python string primitives -/

/-- Python `s[n:]`: drop the first `n` characters (total, clips at the end). -/
def pyDrop (s : String) (n : Nat) : String := ⟨s.data.drop n⟩

/-- Python `s[:-n]`: keep all but the last `n` characters. -/
def pyDropRight (s : String) (n : Nat) : String := ⟨s.data.take (s.data.length - n)⟩

/-- Python `s.startswith(p)`. -/
def pyStartsWith (s p : String) : Bool := p.data.isPrefixOf s.data

/-- Python `s.endswith(p)`. -/
def pyEndsWith (s p : String) : Bool := p.data.isSuffixOf s.data

/-- Worker for Python `s.split(sep)` with a non-empty separator: scan left to
right, cutting at each non-overlapping occurrence of `sep`.  `fuel` bounds the
recursion; with `fuel = length of the remaining text` the default case is
never reached, since every step consumes at least one character. -/
def pySplitAux (sep : List Char) : Nat → List Char → List Char → List (List Char)
  | _, [], acc => [acc.reverse]
  | 0, l, acc => [acc.reverse ++ l]
  | fuel + 1, c :: cs, acc =>
    if sep ≠ [] ∧ sep.isPrefixOf (c :: cs) then
      acc.reverse :: pySplitAux sep fuel ((c :: cs).drop sep.length) []
    else
      pySplitAux sep fuel cs (c :: acc)

/-- Python `s.split(sep)` for a non-empty separator (the code only splits on
the literal `"pluginfile.php/"`).  Always returns a non-empty list. -/
def pySplitOn (s sep : String) : List String :=
  (pySplitAux sep.data s.data.length s.data []).map fun l => ⟨l⟩

/-- Python `s.replace(old, new)` for a non-empty `old`: replace every
non-overlapping occurrence, equivalently `new.join(s.split(old))`. -/
def pyReplace (s oldS newS : String) : String :=
  String.intercalate newS (pySplitOn s oldS)

/-- The characters of `p` up to and including the last `'/'` (`p[:i]` with
`i = p.rfind('/') + 1` in `posixpath.dirname`); empty when `p` has no slash. -/
def upToLastSlash : List Char → List Char
  | [] => []
  | c :: cs =>
    let rest := upToLastSlash cs
    if rest = [] then (if c = '/' then ['/'] else []) else c :: rest

/-- Python `os.path.dirname` (posix): take everything up to the last `'/'`,
then strip trailing slashes unless the head is empty or all slashes. -/
def pyDirname (p : String) : String :=
  let head := upToLastSlash p.data
  if head ≠ [] ∧ head.any (fun c => c ≠ '/') then
    ⟨(head.reverse.dropWhile (fun c => c = '/')).reverse⟩
  else
    ⟨head⟩

/-- Python string `<` (lexicographic by code point), used by `sorted()`. -/
def pyLtChars : List Char → List Char → Bool
  | [], [] => false
  | [], _ :: _ => true
  | _ :: _, [] => false
  | a :: as, b :: bs => if a < b then true else if b < a then false else pyLtChars as bs

/-- Insert into an ascending list, keeping earlier elements first on ties
(stable, as Python's `sorted`). -/
def pyInsertSorted (x : String) : List String → List String
  | [] => [x]
  | y :: ys => if pyLtChars y.data x.data then y :: pyInsertSorted x ys else x :: y :: ys

/-- Python `sorted(list_of_strings)` (ascending, stable). -/
def pySorted : List String → List String
  | [] => []
  | x :: xs => pyInsertSorted x (pySorted xs)

/-! ## Data model

Remote-side values are JSON objects; the fields the code reads through
`dict.get` are modelled as `Option` fields (`none` = key absent). -/

/-- One Moodle error, tagged with the Python exception class it models. -/
inductive PyError where
  /-- `raise ValueError(msg)`. -/
  | valueError (msg : String)
  /-- The implicit `AttributeError` from calling a method on `None`. -/
  | attributeError (msg : String)
  /-- `raise NotImplementedError(msg)`. -/
  | notImplementedError (msg : String)
  /-- `json.JSONDecodeError` escaping from `json.load` on a sidecar file. -/
  | jsonDecodeError (msg : String)
deriving Repr, DecidableEq

/-- A content entry of the book module (`module["contents"]` element). -/
structure Entry where
  filename : Option String
  filepath : Option String
  content : Option String
  fileurl : Option String
deriving Repr, DecidableEq

/-- A course module (`section["modules"]` element); `instanceId` models the
`instance` field. -/
structure Module where
  modname : Option String
  instanceId : Option Nat
  contents : List Entry
deriving Repr, DecidableEq

/-- A section of the course contents tree. -/
structure CourseSection where
  modules : List Module
deriving Repr, DecidableEq

/-- A chapter structure node, as decoded from the `structure` entry's JSON:
`href`, `level`, `subitems` (absent modelled as `[]`: the code only tests
truthiness, and `None`/`[]`/absent all behave as `[]`), plus arbitrary
further fields kept opaque as key/value pairs. -/
inductive ChapterNode : Type where
  | mk (href : Option String) (level : Option Int) (subitems : List ChapterNode)
      (extra : List (String × String)) : ChapterNode

/-- `subitems` projection. -/
def ChapterNode.subitems : ChapterNode → List ChapterNode
  | .mk _ _ sub _ => sub

/-- `level` projection. -/
def ChapterNode.level : ChapterNode → Option Int
  | .mk _ lv _ _ => lv

/-- `href` projection. -/
def ChapterNode.href : ChapterNode → Option String
  | .mk h _ _ _ => h

/-- The `metadata` dict of a flattened record: every field of the node except
`href` (the dict comprehension on line 98 of the source). -/
structure NodeMetadata where
  level : Option Int
  subitems : List ChapterNode
  extra : List (String × String)

/-- Build the `metadata` dict from a node. -/
def ChapterNode.metadata : ChapterNode → NodeMetadata
  | .mk _ lv sub ex => ⟨lv, sub, ex⟩

/-- A flattened chapter skeleton, before reconciliation (the dict built on
lines 96–100). -/
structure FlatChapter where
  url : String
  metadata : NodeMetadata
  is_subchapter : Bool

/-- A fully reconciled chapter record (after lines 107–120 ran). -/
structure ResolvedChapter where
  url : String
  metadata : NodeMetadata
  is_subchapter : Bool
  title : String
  dirname : String
  fileurl : String

/-! ## Structure flattening (lines 91–106) -/

/-- `flatten_chapters` (lines 91–104): emit each node's record, then, when its
`subitems` list is truthy (non-empty), the flattening of the subitems, then
the remaining siblings. -/
def flatten_chapters : List ChapterNode → List FlatChapter
  | [] => []
  | ChapterNode.mk href level subitems extra :: rest =>
    { url := href.getD "",
      metadata := ⟨level, subitems, extra⟩,
      is_subchapter := decide (level.getD 0 > 0) }
      :: ((if subitems.isEmpty then [] else flatten_chapters subitems) ++ flatten_chapters rest)
termination_by l => sizeOf l
decreasing_by
  all_goals simp [ChapterNode.mk.sizeOf_spec]
  all_goals omega

/-! ## Reconciliation (lines 107–121) -/

/-- The generator on lines 108–113: the first entry of `contents` whose
`filename` is `"index.html"` and whose `filepath[1:]` is a prefix of the
chapter's url (`chapter["url"].startswith(entry.get("filepath", "")[1:])`). -/
def findMatchingEntry (contents : List Entry) (url : String) : Option Entry :=
  contents.find? fun e =>
    e.filename == some "index.html" && pyStartsWith url (pyDrop (e.filepath.getD "") 1)

/-- Loop body of lines 107–120 for one flattened chapter.  When a matching
entry exists the record gains `title`, `dirname` (from the fileurl after the
last `"pluginfile.php/"` marker) and `fileurl`.  When no entry matches, the
code logs a warning and sets `title = ""`, but line 119 then calls
`.get("fileurl", "")` on `None`, which raises `AttributeError`. -/
def resolveChapter (contents : List Entry) (ch : FlatChapter) : Except PyError ResolvedChapter :=
  match findMatchingEntry contents ch.url with
  | some entry =>
    .ok { url := ch.url, metadata := ch.metadata, is_subchapter := ch.is_subchapter,
          title := entry.content.getD "",
          dirname :=
            "/" ++ pyDirname (((pySplitOn (entry.fileurl.getD "") "pluginfile.php/").getLastD ""))
              ++ "/",
          fileurl := entry.fileurl.getD "" }
  | none =>
    .error (.attributeError "NoneType object has no attribute get")

/-! ## `get_book_chapters` (lines 59–124)

The course-url id extraction and the two API round-trips are transport
(out of the modelled core); the function below takes the parsed
`core_course_get_contents` response directly.  `parse` stands for Python's
`json.loads` restricted to chapter-structure documents: `none` models a
`json.JSONDecodeError`. -/

/-- The generator on lines 69–73: first module, scanning sections in order
and each section's modules in order, with `modname == "book"` and
`instance == book_id`. -/
def findBookModule (course_contents : List CourseSection) (book_id : Nat) : Option Module :=
  (course_contents.flatMap fun s => s.modules).find? fun m =>
    m.modname == some "book" && m.instanceId == some book_id

/-- `get_book_chapters` from the module search onward (lines 69–124): find the
book module (else `ValueError`), find its `structure` entry (else
`ValueError`), decode its content — defaulting an absent `content` field to
`"[]"` — (decode failure: `ValueError`), flatten, then resolve every record
in order; the first per-chapter failure aborts the whole call. -/
def get_book_chapters (parse : String → Option (List ChapterNode))
    (course_contents : List CourseSection) (book_id : Nat) :
    Except PyError (List ResolvedChapter) :=
  match findBookModule course_contents book_id with
  | none => .error (.valueError "Book module not found in the course contents.")
  | some book_json =>
    match book_json.contents.find? (fun e => e.filename == some "structure") with
    | none => .error (.valueError "Structure file not found in book module.")
    | some structure_entry =>
      match parse (structure_entry.content.getD "[]") with
      | none => .error (.valueError "Invalid structure JSON in book module.")
      | some chapters_structure =>
        (flatten_chapters chapters_structure).mapM (resolveChapter book_json.contents)

/-! ## Pull: per-chapter write (lines 143–164) -/

/-- What one iteration of the `pull_book` loop does to disk for one record:
the two filenames it writes inside the book directory, the HTML body, the
record serialized into the sidecar, and whether the "No fileurl" warning
fired.  `fetch` is the transport oracle for `requests.get` + status check
(`.error` = any exception, which the code swallows to an empty body). -/
structure ChapterWrite where
  htmlName : String
  htmlContent : String
  metaName : String
  metaRecord : ResolvedChapter
  warnedNoFileurl : Bool

/-- Loop body of lines 143–164: derive the base name from the url by deleting
`"index.html"` and every `"/"`; download when `fileurl` is truthy (non-empty),
falling back to `""` on any fetch error; always write both files. -/
def pull_chapter_write (fetch : String → Except String String) (token : String)
    (chapter : ResolvedChapter) : ChapterWrite :=
  let url_path := pyReplace (pyReplace chapter.url "index.html" "") "/" ""
  let content :=
    if chapter.fileurl ≠ "" then
      match fetch (chapter.fileurl ++ "?token=" ++ token) with
      | .ok t => t
      | .error _ => ""
    else ""
  { htmlName := url_path ++ ".html",
    htmlContent := content,
    metaName := url_path ++ ".meta.json",
    metaRecord := chapter,
    warnedNoFileurl := chapter.fileurl = "" }

/-! ## Push (lines 166–214) -/

/-- A snapshot of the book directory: the names `os.listdir` returns and the
text content of each file. -/
structure LocalDir where
  files : List String
  read : String → String

/-- `_update_chapter` (lines 210–214): always raises `NotImplementedError`. -/
def update_chapter (_content : String) (_metadata : ResolvedChapter)
    (_chapter_name : Option String) : Except PyError Unit :=
  .error (.notImplementedError "Chapter update functionality not yet implemented")

/-- Lines 178–185 of `push_book`: the sorted `.html` files, narrowed to the
requested chapter when one is named (`ValueError` when it is absent). -/
def selectChapterFiles (files : List String) (chapter_name : Option String) :
    Except PyError (List String) :=
  let chapter_files := pySorted (files.filter fun f => pyEndsWith f ".html")
  match chapter_name with
  | none => .ok chapter_files
  | some name =>
    if (name ++ ".html") ∈ chapter_files then .ok [name ++ ".html"]
    else .error (.valueError ("Chapter file not found: " ++ name ++ ".html"))

/-- The per-chapter loop of lines 187–208: skip (with a warning) any `.html`
file without its `.meta.json` sidecar; otherwise read both, decode the
sidecar with `parseMeta` (Python `json.load`; `none` = decode error), call
`update_chapter`, and re-raise its failure, aborting the remaining files. -/
def pushChapters (parseMeta : String → Option ResolvedChapter) (dir : LocalDir)
    (chapter_name : Option String) : List String → Except PyError Unit
  | [] => .ok ()
  | f :: rest =>
    let base := pyDropRight f 5
    let metadata_file := base ++ ".meta.json"
    if metadata_file ∈ dir.files then
      match parseMeta (dir.read metadata_file) with
      | none => .error (.jsonDecodeError metadata_file)
      | some metadata =>
        match update_chapter (dir.read f) metadata chapter_name with
        | .error e => .error e
        | .ok _ => pushChapters parseMeta dir chapter_name rest
    else
      pushChapters parseMeta dir chapter_name rest

/-- `push_book` (lines 166–208) over a directory snapshot: select the chapter
files, then run the per-chapter loop. -/
def push_book (parseMeta : String → Option ResolvedChapter) (dir : LocalDir)
    (chapter_name : Option String) : Except PyError Unit :=
  match selectChapterFiles dir.files chapter_name with
  | .error e => .error e
  | .ok chapter_files => pushChapters parseMeta dir chapter_name chapter_files

/-! ## Spec-side definitions

These follow the wording of the specification (not the code) and exist to be
compared with the embedded code. -/

/-- Spec §3/§8: the record one node contributes — url from `href`, metadata =
all fields except `href`, `is_subchapter` iff `level > 0`. -/
def specRecord (c : ChapterNode) : FlatChapter :=
  { url := c.href.getD "", metadata := c.metadata,
    is_subchapter := decide (c.level.getD 0 > 0) }

/-- Spec §3: pre-order traversal — "a node emitted immediately before its
subitems, subitems in their original order, recursively". -/
def specPreorder : List ChapterNode → List FlatChapter
  | [] => []
  | c :: rest => specRecord c :: (specPreorder c.subitems ++ specPreorder rest)
termination_by l => sizeOf l
decreasing_by
  all_goals cases c
  all_goals simp [ChapterNode.subitems, ChapterNode.mk.sizeOf_spec]
  all_goals omega

/-- The number of nodes of a structure tree (spec §8: "a tree of N nodes"). -/
def countNodes : List ChapterNode → Nat
  | [] => 0
  | c :: rest => 1 + countNodes c.subitems + countNodes rest
termination_by l => sizeOf l
decreasing_by
  all_goals cases c
  all_goals simp [ChapterNode.subitems, ChapterNode.mk.sizeOf_spec]
  all_goals omega

/-- Spec §4.3 step 7: a filepath "with its leading path separator stripped". -/
def stripLeadingSep (s : String) : String :=
  if pyStartsWith s "/" then pyDrop s 1 else s

/-- Spec §4.3 step 7 matching rule: filename is `index.html` and the stripped
filepath is a string-prefix of the chapter's url. -/
def specMatches (url : String) (e : Entry) : Bool :=
  e.filename == some "index.html" && pyStartsWith url (stripLeadingSep (e.filepath.getD ""))

/-! ## Theorems -/

/-- The flattening agrees with the spec's pre-order traversal description:
the guard `if subitems.isEmpty` in the code is redundant, since flattening an
empty list yields nothing. -/
theorem flatten_chapters_eq_specPreorder : ∀ l, flatten_chapters l = specPreorder l
  | [] => by simp [flatten_chapters, specPreorder]
  | ChapterNode.mk href level subitems extra :: rest => by
    have h1 := flatten_chapters_eq_specPreorder subitems
    have h2 := flatten_chapters_eq_specPreorder rest
    rw [flatten_chapters, specPreorder]
    simp only [specRecord, ChapterNode.href, ChapterNode.level, ChapterNode.metadata,
      ChapterNode.subitems, h1, h2]
    cases hs : subitems.isEmpty with
    | true =>
      have : subitems = [] := List.isEmpty_iff.mp hs
      subst this
      simp [specPreorder]
    | false => simp
termination_by l => sizeOf l
decreasing_by
  all_goals simp [ChapterNode.mk.sizeOf_spec]
  all_goals omega

/-- The spec traversal emits exactly one record per node. -/
theorem specPreorder_length : ∀ l, (specPreorder l).length = countNodes l
  | [] => by simp [specPreorder, countNodes]
  | c :: rest => by
    have h1 := specPreorder_length c.subitems
    have h2 := specPreorder_length rest
    rw [specPreorder, countNodes]
    simp [h1, h2]
    omega
termination_by l => sizeOf l
decreasing_by
  all_goals cases c
  all_goals simp [ChapterNode.subitems, ChapterNode.mk.sizeOf_spec]
  all_goals omega

/-- C1: flattening a chapter-structure tree yields its pre-order traversal —
each node's record immediately before the records of its subitems, subitems
in their original order, recursively — and exactly one record per node, so a
tree of N nodes yields exactly N records. -/
theorem flatten_chapters_preorder_count (l : List ChapterNode) :
    flatten_chapters l = specPreorder l ∧ (flatten_chapters l).length = countNodes l := by
  refine ⟨flatten_chapters_eq_specPreorder l, ?_⟩
  rw [flatten_chapters_eq_specPreorder l]
  exact specPreorder_length l

/-- C2: the flattened record of a node with a present `level` field has
`is_subchapter = false` when `level = 0` and `is_subchapter = true` when
`level > 0` — the flag is `decide (0 < level)` — where the record is the
head of the flattening of any list the node starts. -/
theorem flatten_chapters_is_subchapter_level (href : Option String) (lv : Int)
    (sub : List ChapterNode) (ex : List (String × String)) (rest : List ChapterNode) :
    ∃ r tail, flatten_chapters (ChapterNode.mk href (some lv) sub ex :: rest) = r :: tail ∧
      r.is_subchapter = decide (0 < lv) := by
  refine ⟨{ url := href.getD "", metadata := ⟨some lv, sub, ex⟩,
            is_subchapter := decide ((some lv).getD 0 > 0) },
          (if sub.isEmpty then [] else flatten_chapters sub) ++ flatten_chapters rest,
          ?_, rfl⟩
  rw [flatten_chapters]

/-- C3: on entries whose filepath is empty or begins with the path separator
(the shape the remote system produces, and the shape the claim's "its leading
path separator" presupposes), reconciliation selects exactly the first entry,
in the entries' original order (`List.find?`), whose filename is `index.html`
and whose filepath with the leading separator stripped is a string-prefix of
the chapter's url; in particular, of two such matching entries the earlier
one is chosen. -/
theorem findMatchingEntry_first_spec_match (contents : List Entry) (url : String)
    (h : ∀ e ∈ contents,
      e.filepath.getD "" = "" ∨ pyStartsWith (e.filepath.getD "") "/" = true) :
    findMatchingEntry contents url = contents.find? (specMatches url) := by
  induction contents with
  | nil => rfl
  | cons a l ih =>
    have ha := h a (List.mem_cons_self a l)
    have hstrip : stripLeadingSep (a.filepath.getD "") = pyDrop (a.filepath.getD "") 1 := by
      rcases ha with h1 | h1
      · rw [h1]; rfl
      · rw [stripLeadingSep, if_pos h1]
    have hpred : specMatches url a
        = (a.filename == some "index.html" && pyStartsWith url (pyDrop (a.filepath.getD "") 1)) := by
      rw [specMatches, hstrip]
    have ihl := ih fun e he => h e (List.mem_cons_of_mem a he)
    rw [findMatchingEntry] at ihl ⊢
    rw [List.find?_cons, List.find?_cons, hpred, ihl]

/-- C3 witness: two entries both match the url `ch1/index.html` after
stripping (`/ch1` and `/`), and the first one is selected. -/
theorem findMatchingEntry_first_spec_match_witness :
    ((∀ e ∈ [Entry.mk (some "index.html") (some "/ch1") (some "One") (some "u1"),
             Entry.mk (some "index.html") (some "/") (some "Root") (some "u2")],
        e.filepath.getD "" = "" ∨ pyStartsWith (e.filepath.getD "") "/" = true) ∧
      findMatchingEntry
          [Entry.mk (some "index.html") (some "/ch1") (some "One") (some "u1"),
           Entry.mk (some "index.html") (some "/") (some "Root") (some "u2")] "ch1/index.html"
        = [Entry.mk (some "index.html") (some "/ch1") (some "One") (some "u1"),
           Entry.mk (some "index.html") (some "/") (some "Root") (some "u2")].find?
            (specMatches "ch1/index.html")) ∧
      findMatchingEntry
          [Entry.mk (some "index.html") (some "/ch1") (some "One") (some "u1"),
           Entry.mk (some "index.html") (some "/") (some "Root") (some "u2")] "ch1/index.html"
        = some (Entry.mk (some "index.html") (some "/ch1") (some "One") (some "u1")) :=
  ⟨⟨by decide, findMatchingEntry_first_spec_match _ _ (by decide)⟩, rfl⟩

/-- C4 counterexample: with an empty chapter url, an `index.html` entry whose
filepath is the bare path separator `"/"` IS matched by the code
(`"".startswith("/"[1:])` is `"".startswith("")`, which is true), so
reconciliation does find an entry, contrary to the claim. -/
theorem findMatchingEntry_empty_url_counterexample :
    findMatchingEntry [Entry.mk (some "index.html") (some "/") (some "Root") (some "u")] ""
      = some (Entry.mk (some "index.html") (some "/") (some "Root") (some "u")) := rfl

/-- C4 (amended): for an empty chapter url, reconciliation finds no matching
entry provided every entry's filepath minus its first character is non-empty;
an `index.html` entry whose filepath is `""` or the bare separator `"/"`
does match the empty url. -/
theorem findMatchingEntry_empty_url_none (contents : List Entry)
    (h : ∀ e ∈ contents, pyDrop (e.filepath.getD "") 1 ≠ "") :
    findMatchingEntry contents "" = none := by
  rw [findMatchingEntry, List.find?_eq_none]
  intro e he
  have hne := h e he
  rcases hd : (pyDrop (e.filepath.getD "") 1).data with _ | ⟨c, cs⟩
  · exfalso
    apply hne
    cases hcase : pyDrop (e.filepath.getD "") 1 with
    | mk d => rw [hcase] at hd; simp at hd; rw [hd]
  · have : pyStartsWith "" (pyDrop (e.filepath.getD "") 1) = false := by
      rw [pyStartsWith, hd]
      rfl
    simp [this]

/-- C4 witness: a typical entries list (filepaths `/ch1` and `/ch2/sec`)
yields no match for the empty url. -/
theorem findMatchingEntry_empty_url_none_witness :
    ((∀ e ∈ [Entry.mk (some "index.html") (some "/ch1") (some "One") (some "u1"),
             Entry.mk (some "index.html") (some "/ch2/sec") (some "Two") (some "u2")],
        pyDrop (e.filepath.getD "") 1 ≠ "") ∧
      findMatchingEntry
          [Entry.mk (some "index.html") (some "/ch1") (some "One") (some "u1"),
           Entry.mk (some "index.html") (some "/ch2/sec") (some "Two") (some "u2")] ""
        = none) :=
  ⟨by decide, findMatchingEntry_empty_url_none _ (by decide)⟩

/-- C5: contrary to the claim, an unmatched chapter record does not survive
reconciliation — after the warning and `title = ""`, line 119 calls
`.get("fileurl", "")` on the absent (`None`) entry and raises
`AttributeError`, so no record sequence is returned.  Here evaluated at a
concrete failing input: a chapter with url `ch1/index.html` against a
contents list holding only the `structure` entry (no `index.html` entry). -/
theorem resolveChapter_unmatched_raises :
    resolveChapter [Entry.mk (some "structure") (some "/") (some "[]") none]
        (FlatChapter.mk "ch1/index.html" ⟨some 0, [], []⟩ false)
      = .error (.attributeError "NoneType object has no attribute get") := rfl

/-- C6: when reconciliation matches an entry carrying a fileurl, the record's
dirname is the fileurl stripped up to and past the last `pluginfile.php/`
marker, taken through `os.path.dirname`, wrapped in leading and trailing
separators; and the record's fileurl is the entry's fileurl (the title being
the entry's content). -/
theorem resolveChapter_matched_dirname (contents : List Entry) (ch : FlatChapter)
    (e : Entry) (u : String)
    (h1 : findMatchingEntry contents ch.url = some e) (h2 : e.fileurl = some u) :
    resolveChapter contents ch = .ok
      { url := ch.url, metadata := ch.metadata, is_subchapter := ch.is_subchapter,
        title := e.content.getD "",
        dirname := "/" ++ pyDirname ((pySplitOn u "pluginfile.php/").getLastD "") ++ "/",
        fileurl := u } := by
  simp [resolveChapter, h1, h2]

/-- C6 witness: a realistic pluginfile url resolves to the concrete dirname
`/123/mod_book/chapter/5/`. -/
theorem resolveChapter_matched_dirname_witness :
    resolveChapter
        [Entry.mk (some "index.html") (some "/ch1") (some "Chapter One")
          (some "https://m/webservice/pluginfile.php/123/mod_book/chapter/5/index.html")]
        (FlatChapter.mk "ch1/index.html" ⟨some 0, [], []⟩ false)
      = .ok
        { url := "ch1/index.html", metadata := ⟨some 0, [], []⟩, is_subchapter := false,
          title := "Chapter One",
          dirname := "/123/mod_book/chapter/5/",
          fileurl := "https://m/webservice/pluginfile.php/123/mod_book/chapter/5/index.html" } :=
  (resolveChapter_matched_dirname
      [Entry.mk (some "index.html") (some "/ch1") (some "Chapter One")
        (some "https://m/webservice/pluginfile.php/123/mod_book/chapter/5/index.html")]
      (FlatChapter.mk "ch1/index.html" ⟨some 0, [], []⟩ false)
      (Entry.mk (some "index.html") (some "/ch1") (some "Chapter One")
        (some "https://m/webservice/pluginfile.php/123/mod_book/chapter/5/index.html"))
      "https://m/webservice/pluginfile.php/123/mod_book/chapter/5/index.html" rfl rfl).trans
    rfl

/-- C7: when no section's module has type `book` with the requested instance
id, `get_book_chapters` fails with the book-not-found error and returns no
record sequence. -/
theorem get_book_chapters_no_book (parse : String → Option (List ChapterNode))
    (cc : List CourseSection) (book_id : Nat)
    (h : ∀ s ∈ cc, ∀ m ∈ s.modules,
      ¬(m.modname = some "book" ∧ m.instanceId = some book_id)) :
    get_book_chapters parse cc book_id
      = .error (.valueError "Book module not found in the course contents.") := by
  have hfind : findBookModule cc book_id = none := by
    rw [findBookModule, List.find?_eq_none]
    intro m hm
    rw [List.mem_flatMap] at hm
    obtain ⟨s, hs, hms⟩ := hm
    have hnot := h s hs m hms
    simp only [Bool.and_eq_true, beq_iff_eq, not_and]
    intro h1 h2
    exact hnot ⟨h1, h2⟩
  rw [get_book_chapters, hfind]

/-- C7 witness: a course with one section holding a `page` module and a book
module with a different instance id yields the not-found error for id 7. -/
theorem get_book_chapters_no_book_witness :
    ((∀ s ∈ [CourseSection.mk [Module.mk (some "page") (some 7) [],
                               Module.mk (some "book") (some 9) []]],
        ∀ m ∈ s.modules, ¬(m.modname = some "book" ∧ m.instanceId = some 7)) ∧
      get_book_chapters (fun _ => none)
          [CourseSection.mk [Module.mk (some "page") (some 7) [],
                             Module.mk (some "book") (some 9) []]] 7
        = .error (.valueError "Book module not found in the course contents.")) :=
  ⟨by decide, get_book_chapters_no_book _ _ _ (by decide)⟩

/-- C10: when the located `structure` entry has no `content` field, the code
decodes the default `"[]"` to an empty chapter list and returns an empty
record sequence with no error (the decode-failure error is reserved for a
present string that fails to parse).  `parse` models `json.loads`, so
`parse "[]" = some []` is a hypothesis, not an assumption about this code. -/
theorem get_book_chapters_missing_content (parse : String → Option (List ChapterNode))
    (cc : List CourseSection) (book_id : Nat) (bj : Module) (st : Entry)
    (h1 : findBookModule cc book_id = some bj)
    (h2 : bj.contents.find? (fun e => e.filename == some "structure") = some st)
    (h3 : st.content = none)
    (h4 : parse "[]" = some []) :
    get_book_chapters parse cc book_id = .ok [] := by
  have h4D : parse (Option.getD st.content "[]") = some [] := by rw [h3]; exact h4
  simp only [get_book_chapters, h1, h2, h4D]
  rw [flatten_chapters]
  rfl

/-- C10 witness: a one-section course whose book module carries only a
content-less `structure` entry pulls an empty chapter list. -/
theorem get_book_chapters_missing_content_witness :
    (findBookModule
        [CourseSection.mk [Module.mk (some "book") (some 7)
          [Entry.mk (some "structure") none none none]]] 7
      = some (Module.mk (some "book") (some 7) [Entry.mk (some "structure") none none none]) ∧
      (Entry.mk (some "structure") none none none).content = none) ∧
      get_book_chapters (fun s => if s = "[]" then some [] else none)
        [CourseSection.mk [Module.mk (some "book") (some 7)
          [Entry.mk (some "structure") none none none]]] 7
      = .ok [] :=
  ⟨⟨rfl, rfl⟩,
    get_book_chapters_missing_content _ _ 7
      (Module.mk (some "book") (some 7) [Entry.mk (some "structure") none none none])
      (Entry.mk (some "structure") none none none) rfl rfl rfl rfl⟩

/-- C8: for a record with no fileurl (set to the empty string by
reconciliation when the matched entry carried none), the pull loop warns and
still writes the full local pair: the `<base>.html` file with empty content
and the `<base>.meta.json` sidecar serializing the complete record, whose
fileurl field is the absent marker; the write is never skipped. -/
theorem pull_chapter_write_no_fileurl (fetch : String → Except String String)
    (token : String) (chapter : ResolvedChapter) (h : chapter.fileurl = "") :
    pull_chapter_write fetch token chapter =
      { htmlName := pyReplace (pyReplace chapter.url "index.html" "") "/" "" ++ ".html",
        htmlContent := "",
        metaName := pyReplace (pyReplace chapter.url "index.html" "") "/" "" ++ ".meta.json",
        metaRecord := chapter,
        warnedNoFileurl := true } := by
  simp [pull_chapter_write, h]

/-- C8 witness: a fileurl-less record for `ch1/index.html` produces the pair
`ch1.html` (empty body) and `ch1.meta.json` (the record), with the warning. -/
theorem pull_chapter_write_no_fileurl_witness :
    (ResolvedChapter.fileurl ⟨"ch1/index.html", ⟨some 0, [], []⟩, false, "", "/", ""⟩ = "") ∧
      pull_chapter_write (fun u => .ok u) "tok"
          ⟨"ch1/index.html", ⟨some 0, [], []⟩, false, "", "/", ""⟩
        = { htmlName := "ch1.html", htmlContent := "", metaName := "ch1.meta.json",
            metaRecord := ⟨"ch1/index.html", ⟨some 0, [], []⟩, false, "", "/", ""⟩,
            warnedNoFileurl := true } :=
  ⟨rfl, (pull_chapter_write_no_fileurl (fun u => .ok u) "tok"
      ⟨"ch1/index.html", ⟨some 0, [], []⟩, false, "", "/", ""⟩ rfl).trans rfl⟩

/-- Helper for C9: once the per-chapter loop reaches any `.html` file whose
`.meta.json` sidecar exists (and decodes), `update_chapter` raises and the
error aborts the rest of the batch. -/
theorem pushChapters_error_of_sidecar (parseMeta : String → Option ResolvedChapter)
    (dir : LocalDir) (chname : Option String) :
    ∀ fs : List String,
      (∀ f ∈ fs, (pyDropRight f 5 ++ ".meta.json") ∈ dir.files →
        (parseMeta (dir.read (pyDropRight f 5 ++ ".meta.json"))).isSome = true) →
      (∃ f ∈ fs, (pyDropRight f 5 ++ ".meta.json") ∈ dir.files) →
      pushChapters parseMeta dir chname fs
        = .error (.notImplementedError "Chapter update functionality not yet implemented") := by
  intro fs
  induction fs with
  | nil => rintro _ ⟨f, hf, _⟩; exact absurd hf (List.not_mem_nil f)
  | cons f rest ih =>
    intro hparse hex
    by_cases hmem : (pyDropRight f 5 ++ ".meta.json") ∈ dir.files
    · have hsome := hparse f (List.mem_cons_self f rest) hmem
      obtain ⟨md, hmd⟩ := Option.isSome_iff_exists.mp hsome
      simp [pushChapters, hmem, hmd, update_chapter]
    · have hex' : ∃ g ∈ rest, (pyDropRight g 5 ++ ".meta.json") ∈ dir.files := by
        obtain ⟨g, hg, hgmem⟩ := hex
        rcases List.mem_cons.mp hg with rfl | hg'
        · exact absurd hgmem hmem
        · exact ⟨g, hg', hgmem⟩
      have hparse' := fun g hg => hparse g (List.mem_cons_of_mem f hg)
      simp only [pushChapters, if_neg hmem]
      exact ih hparse' hex'

/-- C9: whenever the chapter selection succeeds and some selected `.html`
file has its `.meta.json` sidecar (each present sidecar decoding), push
raises the not-implemented error — it never silently succeeds, and the first
such chapter aborts the remaining ones (no record of later chapters is
processed, since the whole call returns this error). -/
theorem push_book_unsupported (parseMeta : String → Option ResolvedChapter)
    (dir : LocalDir) (chapter_name : Option String) (fs : List String)
    (h1 : selectChapterFiles dir.files chapter_name = .ok fs)
    (h2 : ∀ f ∈ fs, (pyDropRight f 5 ++ ".meta.json") ∈ dir.files →
      (parseMeta (dir.read (pyDropRight f 5 ++ ".meta.json"))).isSome = true)
    (h3 : ∃ f ∈ fs, (pyDropRight f 5 ++ ".meta.json") ∈ dir.files) :
    push_book parseMeta dir chapter_name
      = .error (.notImplementedError "Chapter update functionality not yet implemented") := by
  rw [push_book, h1]
  exact pushChapters_error_of_sidecar parseMeta dir chapter_name fs h2 h3

/-- C9 witness: a directory holding the pair `a.html` / `a.meta.json` makes
push fail with the not-implemented error. -/
theorem push_book_unsupported_witness :
    (selectChapterFiles ["a.html", "a.meta.json"] none = .ok ["a.html"] ∧
      (pyDropRight "a.html" 5 ++ ".meta.json") ∈ ["a.html", "a.meta.json"]) ∧
      push_book (fun _ => some ⟨"", ⟨none, [], []⟩, false, "", "", ""⟩)
          ⟨["a.html", "a.meta.json"], fun _ => ""⟩ none
        = .error (.notImplementedError "Chapter update functionality not yet implemented") :=
  ⟨⟨rfl, by decide⟩,
    push_book_unsupported (fun _ => some ⟨"", ⟨none, [], []⟩, false, "", "", ""⟩)
      ⟨["a.html", "a.meta.json"], fun _ => ""⟩ none ["a.html"] rfl
      (fun f _ _ => rfl) ⟨"a.html", by decide, by decide⟩⟩

end MoodleBookSync
